import Mathlib

/-!
Verification of the Launchtube transaction-intent compiler and relay client
(packages/plugin-launchtube): a shallow embedding of the address validator,
the XDR transaction builder, the submit/checkCredits relay operations and the
surrounding action handlers, together with theorems settling the spec claims.

Strings model JavaScript strings; `Option String` models a field that may be
`undefined`/`null` (`none`) or a string (`some s`, with `some ""` the empty
string, which is falsy in JavaScript).  Network effects are made explicit as
an event trace returned alongside each result.
-/

namespace Avenrise

/-- JavaScript truthiness of an optional string field: `undefined`, `null`
and `""` are falsy. -/
def truthyStr : Option String → Bool
  | none => false
  | some s => !s.isEmpty

/-! ## AddressValidator

Embedding of `isValidStellarAddress` (submitTransaction action):
`typeof address === "string" && address.length === 56 &&
 address.startsWith("G") && /^[A-Z0-9]+$/.test(address)`.
The `typeof` guard is discharged by the typed embedding (the argument is a
string).  Strings are modelled as their character lists. -/

/-- Membership in the character class `[A-Z0-9]`. -/
def upperAlnum (c : Char) : Bool :=
  (decide ('A' ≤ c) && decide (c ≤ 'Z')) || (decide ('0' ≤ c) && decide (c ≤ '9'))

/-- The regex `/^[A-Z0-9]+$/`: a nonempty string all of whose characters lie
in `[A-Z0-9]`. -/
def regexUpperAlnumPlus (s : String) : Bool :=
  !s.data.isEmpty && s.data.all upperAlnum

/-- `isValidStellarAddress` from the submitTransaction action. -/
def isValidStellarAddress (address : String) : Bool :=
  decide (address.data.length = 56) &&
  decide (address.data.head? = some 'G') &&
  regexUpperAlnumPlus address

end Avenrise

namespace Avenrise

/-! ## Data model

`StellarTransactionDetails` from `types.ts`, restricted to the fields the
transaction builder reads.  The `type` field is a string at runtime (the
extraction collaborator may produce anything), matching the JavaScript
`switch` on `details.type`. -/

/-- An asset reference `{code?, issuer?}` as produced by intent extraction. -/
structure AssetRef where
  code : Option String := none
  issuer : Option String := none
deriving DecidableEq, Repr

/-- The intent object consumed by `buildTransactionXDR` and the
submitTransaction handler. -/
structure StellarTransactionDetails where
  type : String
  sourceAccount : Option String := none
  destinationAccount : Option String := none
  amount : Option String := none
  asset : Option AssetRef := none
  memo : Option String := none
  memoType : Option String := none
  xdr : Option String := none
  sendAsset : Option AssetRef := none
  sendMax : Option String := none
  destAsset : Option AssetRef := none
  destAmount : Option String := none
  path : Option (List AssetRef) := none
  trustAsset : Option AssetRef := none
  trustLimit : Option String := none
  startingBalance : Option String := none
deriving DecidableEq, Repr

/-! ## Ledger SDK boundary

The `@stellar/stellar-sdk` constructors are external collaborators; the
embedding records exactly the arguments the builder hands them.  `alphanum`
carries `Option String` arguments because the source passes possibly
`undefined` values through non-null assertions (`issuer!`, `code!`). -/

/-- Argument record of an `Asset` construction: `Asset.native()` or
`new Asset(code, issuer)`. -/
inductive SdkAsset where
  | native
  | alphanum (code : Option String) (issuer : Option String)
deriving DecidableEq, Repr

/-- Argument record of the single operation the builder adds. -/
inductive SdkOperation where
  | payment (destination : String) (asset : SdkAsset) (amount : String)
  | createAccount (destination : String) (startingBalance : String)
  | changeTrust (asset : SdkAsset) (limit : Option String)
  | pathPaymentStrictReceive (sendAsset : SdkAsset) (sendMax : String)
      (destination : String) (destAsset : SdkAsset) (destAmount : String)
      (path : List SdkAsset)
deriving DecidableEq, Repr

/-- Argument record of the memo attached, if any. -/
inductive SdkMemo where
  | text (s : String)
  | id (s : String)
  | hash (s : String)
  | ret (s : String)
deriving DecidableEq, Repr

/-- The completed transaction handed to `.setTimeout(30).build()`. -/
structure BuiltTx where
  sourceAccount : String
  operation : SdkOperation
  memo : Option SdkMemo
  timeoutSecs : Nat
deriving DecidableEq, Repr

/-- Network interactions, made explicit as a trace. -/
inductive NetEvent where
  | loadAccount (address : String)
  | httpPost (endpoint : String) (body : List (String × String))
  | httpGet (endpoint : String)
deriving DecidableEq, Repr

/-- Compile-time failures thrown by `buildTransactionXDR`, one constructor
per `throw new Error(...)` site. -/
inductive BuildError where
  | sourceAccountRequired
  | paymentMissingFields
  | createAccountMissingFields
  | changeTrustMissingFields
  | pathPaymentMissingFields
  | unsupportedTransactionType (t : String)
deriving DecidableEq, Repr

/-- Asset-shorthand resolution used for `payment`, `sendAsset` and
`destAsset`: `a?.code === "XLM" || !a?.code ? Asset.native() :
new Asset(a.code, a.issuer!)`. -/
def resolveAsset : Option AssetRef → SdkAsset
  | none => .native
  | some ar =>
    match ar.code with
    | none => .native
    | some c => if c = "XLM" ∨ c = "" then .native else .alphanum (some c) ar.issuer

/-- The `path` element mapping: `p.code === "XLM" ? Asset.native() :
new Asset(p.code!, p.issuer!)` (note: unlike `resolveAsset`, only the exact
code `"XLM"` maps to native). -/
def pathAssetMap (p : AssetRef) : SdkAsset :=
  if p.code = some "XLM" then .native else .alphanum p.code p.issuer

/-- The `switch (details.type)` of `buildTransactionXDR`: field presence
checks (JavaScript falsiness) and construction of the single operation. -/
def buildOperation (d : StellarTransactionDetails) : Except BuildError SdkOperation :=
  if d.type = "payment" then
    match d.destinationAccount, d.amount with
    | some dest, some amt =>
      if dest = "" ∨ amt = "" then .error .paymentMissingFields
      else .ok (.payment dest (resolveAsset d.asset) amt)
    | _, _ => .error .paymentMissingFields
  else if d.type = "createAccount" then
    match d.destinationAccount, d.startingBalance with
    | some dest, some bal =>
      if dest = "" ∨ bal = "" then .error .createAccountMissingFields
      else .ok (.createAccount dest bal)
    | _, _ => .error .createAccountMissingFields
  else if d.type = "changeTrust" then
    match d.trustAsset with
    | some ta =>
      if truthyStr ta.code ∧ truthyStr ta.issuer then
        .ok (.changeTrust (.alphanum ta.code ta.issuer) d.trustLimit)
      else .error .changeTrustMissingFields
    | none => .error .changeTrustMissingFields
  else if d.type = "pathPayment" then
    match d.destinationAccount, d.sendMax, d.destAmount with
    | some dest, some sendMax, some destAmt =>
      if dest = "" ∨ sendMax = "" ∨ destAmt = "" then .error .pathPaymentMissingFields
      else
        .ok (.pathPaymentStrictReceive (resolveAsset d.sendAsset) sendMax dest
          (resolveAsset d.destAsset) destAmt
          ((d.path.getD []).map pathAssetMap))
    | _, _, _ => .error .pathPaymentMissingFields
  else .error (.unsupportedTransactionType d.type)

/-- Memo attachment: `if (details.memo)` then switch on
`details.memoType || "text"`; an unrecognized memo type falls through the
switch and attaches nothing. -/
def buildMemo (d : StellarTransactionDetails) : Option SdkMemo :=
  match d.memo with
  | none => none
  | some m =>
    if m = "" then none
    else
      let mt := match d.memoType with
        | none => "text"
        | some t => if t = "" then "text" else t
      if mt = "text" then some (.text m)
      else if mt = "id" then some (.id m)
      else if mt = "hash" then some (.hash m)
      else if mt = "return" then some (.ret m)
      else none

/-- `buildTransactionXDR`: rejects a missing source account, then loads the
source account from Horizon (the network read, recorded in the trace), then
runs the operation switch, attaches the memo and finalizes with a 30-second
timeout.  The result pairs the network-event trace with the outcome. -/
def buildTransactionXDR (d : StellarTransactionDetails) :
    List NetEvent × Except BuildError BuiltTx :=
  match d.sourceAccount with
  | none => ([], .error .sourceAccountRequired)
  | some src =>
    if src = "" then ([], .error .sourceAccountRequired)
    else
      ([.loadAccount src],
        match buildOperation d with
        | .error e => .error e
        | .ok op =>
          .ok { sourceAccount := src, operation := op, memo := buildMemo d,
                timeoutSecs := 30 })

/-- Compile-stage failures of the submitTransaction handler: the two address
validations, then anything thrown by the builder. -/
inductive HandlerError where
  | invalidSourceAccount (a : String)
  | invalidDestinationAccount (a : String)
  | build (e : BuildError)
deriving DecidableEq, Repr

/-- What the handler submits: a raw XDR string passed through, or the built
transaction. -/
inductive CompiledTx where
  | rawXdr (s : String)
  | built (tx : BuiltTx)
deriving DecidableEq, Repr

/-- Stage 3 of the submitTransaction handler: a truthy `xdr` field on an
`xdr` intent is passed through directly; every other intent goes through
`buildTransactionXDR`. -/
def handlerBuildStage (d : StellarTransactionDetails) :
    List NetEvent × Except HandlerError CompiledTx :=
  if d.type = "xdr" ∧ truthyStr d.xdr = true then
    ([], .ok (.rawXdr (d.xdr.getD "")))
  else
    match buildTransactionXDR d with
    | (evs, .error e) => (evs, .error (.build e))
    | (evs, .ok tx) => (evs, .ok (.built tx))

/-- Stage 2 of the submitTransaction handler: reject a present (truthy)
destination account that fails `isValidStellarAddress`. -/
def handlerDestStage (d : StellarTransactionDetails) :
    List NetEvent × Except HandlerError CompiledTx :=
  match d.destinationAccount with
  | some t =>
    if t ≠ "" ∧ isValidStellarAddress t = false then
      ([], .error (.invalidDestinationAccount t))
    else handlerBuildStage d
  | none => handlerBuildStage d

/-- The compile phase of the submitTransaction handler: validate
`sourceAccount` and `destinationAccount` when present (truthy), pass a raw
`xdr` intent through, otherwise call `buildTransactionXDR`.  The trace
records every network interaction performed before the relay submission. -/
def handlerCompile (d : StellarTransactionDetails) :
    List NetEvent × Except HandlerError CompiledTx :=
  match d.sourceAccount with
  | some s =>
    if s ≠ "" ∧ isValidStellarAddress s = false then
      ([], .error (.invalidSourceAccount s))
    else handlerDestStage d
  | none => handlerDestStage d

/-! ## Relay client (`LaunchtubeService`)

HTTP is modelled by passing the outcome of the single `fetch` explicitly: a
network-level failure message, or a response with a status code, headers, a
body text, and the result of parsing the body as JSON (`Except` carries the
parse-error message that `JSON.parse`/`response.json()` would throw). -/

/-- The validated plugin configuration (`environment.ts`). -/
structure LaunchtubeConfig where
  apiKey : String
  baseUrl : String
  network : String
deriving DecidableEq, Repr

/-- An HTTP response as observed by the service; `β` is the shape the body
parses to on the endpoint in question. -/
structure HttpResponse (β : Type) where
  status : Nat
  headers : List (String × String)
  bodyText : String
  json : Except String β

/-- Outcome of one `fetch` call: rejection with an error message, or a
response. -/
inductive FetchOutcome (β : Type) where
  | netError (msg : String)
  | ok (resp : HttpResponse β)

/-- `response.ok`: status in the 2xx range. -/
def respOk (status : Nat) : Bool :=
  decide (200 ≤ status) && decide (status < 300)

/-- ASCII lowercase of a character code, used for the case-insensitive
header-name comparison of the Fetch `Headers.get` contract. -/
def asciiLowerCode (c : Char) : Nat :=
  if 65 ≤ c.toNat ∧ c.toNat ≤ 90 then c.toNat + 32 else c.toNat

/-- Case-insensitive equality of header names. -/
def headerNameEq (a b : String) : Bool :=
  decide (a.data.map asciiLowerCode = b.data.map asciiLowerCode)

/-- `Headers.get`, which is case-insensitive in header names; returns `null`
when absent. -/
def headerGet (headers : List (String × String)) (k : String) : Option String :=
  (headers.find? (fun p => headerNameEq p.1 k)).map (fun p => p.2)

/-- `LaunchtubeService.makeRequest`: throws when the service was never
initialized, propagates the fetch rejection, and turns a non-2xx response
into a thrown `Launchtube API error (status): bodyText`; otherwise returns
the response. -/
def makeRequest (config : Option LaunchtubeConfig) (outcome : FetchOutcome β) :
    Except String (HttpResponse β) :=
  match config with
  | none => .error "LaunchtubeService not initialized"
  | some _ =>
    match outcome with
    | .netError m => .error m
    | .ok resp =>
      if respOk resp.status then .ok resp
      else .error ("Launchtube API error (" ++ toString resp.status ++ "): "
        ++ resp.bodyText)

/-- `LaunchtubeSubmissionRequest` from `types.ts`. -/
structure SubmissionRequest where
  xdr : Option String := none
  func : Option String := none
  auth : Option (List String) := none
  sim : Option Bool := none
deriving DecidableEq, Repr

/-- The JSON body of a 2xx submission response, as read by the service
(`result.tx || result.hash`). -/
structure SubmitBody where
  tx : Option String := none
  hash : Option String := none
deriving DecidableEq, Repr

/-- JavaScript `a || b` on two optional strings: `a` when truthy, otherwise
`b` unchanged. -/
def jsOrString (a b : Option String) : Option String :=
  if truthyStr a then a else b

/-- The `URLSearchParams` body assembled by `submitTransaction`: each field
is appended when present (`xdr`/`func` when truthy, `auth` per entry when
the array is present, `sim` whenever it is not `undefined`). -/
def encodeSubmitBody (req : SubmissionRequest) : List (String × String) :=
  (match req.xdr with
    | some x => if x = "" then [] else [("xdr", x)]
    | none => []) ++
  (match req.func with
    | some f => if f = "" then [] else [("func", f)]
    | none => []) ++
  (match req.auth with
    | some entries => entries.map (fun a => ("auth[]", a))
    | none => []) ++
  (match req.sim with
    | some b => [("sim", if b then "true" else "false")]
    | none => [])

/-- `LaunchtubeSubmissionResponse`: the object `submitTransaction` returns.
`detailsCreditsRemaining` is the `creditsRemaining` entry spread into
`details` from the `X-Credits-Remaining` header (a string, `none` when the
header is absent). -/
structure SubmissionResponse where
  status : String
  tx : Option String := none
  error : Option String := none
  detailsCreditsRemaining : Option String := none
deriving DecidableEq, Repr

/-- `LaunchtubeService.submitTransaction`: encodes the request, POSTs it to
`/` (recorded in the trace whenever the service is configured — there is no
client-side mutual-exclusion check on `xdr`/`func`), and wraps every thrown
error into a `status: "error"` result via the surrounding `try`/`catch`. -/
def submitTransaction (config : Option LaunchtubeConfig)
    (req : SubmissionRequest) (outcome : FetchOutcome SubmitBody) :
    List NetEvent × SubmissionResponse :=
  let events : List NetEvent :=
    match config with
    | none => []
    | some _ => [.httpPost "/" (encodeSubmitBody req)]
  let result : SubmissionResponse :=
    match makeRequest config outcome with
    | .error m => { status := "error", error := some m }
    | .ok resp =>
      match resp.json with
      | .error m => { status := "error", error := some m }
      | .ok body =>
        { status := "success",
          tx := jsOrString body.tx body.hash,
          detailsCreditsRemaining := headerGet resp.headers "X-Credits-Remaining" }
  (events, result)

/-- The `/info` JSON body; `credits` holds the field's `toString()` value
when the field is present and non-nullish. -/
structure InfoBody where
  credits : Option String := none
  activated : Option Bool := none
deriving DecidableEq, Repr

/-- `parsed.credits?.toString() || "0"`: a missing (or empty-string) credits
field silently becomes the string `"0"`. -/
def extractCredits (parsed : InfoBody) : String :=
  match parsed.credits with
  | none => "0"
  | some s => if s = "" then "0" else s

/-- `LaunchtubeService.checkCredits`: GET `/info`, parse the body, extract
`credits`; every thrown error is logged and rethrown (`Except.error`). -/
def checkCredits (config : Option LaunchtubeConfig)
    (outcome : FetchOutcome InfoBody) : List NetEvent × Except String String :=
  let events : List NetEvent :=
    match config with
    | none => []
    | some _ => [.httpGet "/info"]
  let result : Except String String :=
    match makeRequest config outcome with
    | .error m => .error m
    | .ok resp =>
      match resp.json with
      | .error m => .error m
      | .ok parsed => .ok (extractCredits parsed)
  (events, result)

/-- JavaScript `parseInt(s, 10)`: skip leading whitespace, read an optional
sign and then leading decimal digits, ignoring any trailing characters;
`NaN` (here `none`) when no digit is found. -/
def jsParseInt (s : String) : Option Int :=
  let cs := s.data.dropWhile (fun c => c.isWhitespace)
  let signAndRest : Int × List Char :=
    match cs with
    | '-' :: r => (-1, r)
    | '+' :: r => (1, r)
    | _ => (1, cs)
  let ds := signAndRest.2.takeWhile (fun c => c.isDigit)
  if ds.isEmpty then none
  else some (signAndRest.1 *
    (ds.foldl (fun n c => 10 * n + (c.toNat - 48)) 0 : Nat))

/-- The `content` object the checkCredits action hands its callback:
`success: !isNaN(credits)`, `parsingError: isNaN(credits)` (absent on the
catch path), the parsed credits (`none` models `NaN`), the raw string, and
the caught error message on the catch path. -/
structure CreditsReport where
  success : Bool
  parsingError : Option Bool := none
  credits : Option Int := none
  creditsString : Option String := none
  errorMsg : Option String := none
deriving DecidableEq, Repr

/-- The checkCredits action handler: calls the service, parses the credits
string with `parseInt`, and reports either the parsed balance, a
parsing-error condition, or the caught error. -/
def checkCreditsHandler (config : Option LaunchtubeConfig)
    (outcome : FetchOutcome InfoBody) : CreditsReport :=
  match (checkCredits config outcome).2 with
  | .error m => { success := false, errorMsg := some m }
  | .ok s =>
    let credits := jsParseInt s
    { success := credits.isSome, parsingError := some credits.isNone,
      credits := credits, creditsString := some s }

/-! ## Concrete fixtures

Closed inputs used to evaluate the model in counterexamples and witnesses.
The two account identifiers are the examples embedded in the extraction
template of the submitTransaction action. -/

/-- A well-formed account identifier (source). -/
def gAddr1 : String := "GA6QDEN2WHZ3C4PVEM75ZXYGHQSZ6EAYRVRBG5HKWGIX7XFNX4EKUREI"

/-- A well-formed account identifier (destination / issuer). -/
def gAddr2 : String := "GA5ZSEJYB37JRC5AVCIA5MOP4RHTM335X2KGX3IHOJAPP5RE34K4KZVN"

/-- A validated configuration, as in the plugin test suite. -/
def cfg0 : LaunchtubeConfig :=
  { apiKey := "test-api-key", baseUrl := "https://testnet.launchtube.xyz",
    network := "testnet" }

/-- A payment intent whose amount is the non-positive string `"-5"`. -/
def paymentNegativeAmount : StellarTransactionDetails :=
  { type := "payment", sourceAccount := some gAddr1,
    destinationAccount := some gAddr2, amount := some "-5" }

/-- A payment intent with no amount field at all. -/
def paymentNoAmount : StellarTransactionDetails :=
  { type := "payment", sourceAccount := some gAddr1,
    destinationAccount := some gAddr2 }

/-- A changeTrust intent whose trust asset has a code but no issuer. -/
def changeTrustNoIssuer : StellarTransactionDetails :=
  { type := "changeTrust", sourceAccount := some gAddr1,
    trustAsset := some { code := some "USDC" } }

/-- A payment intent in a non-native asset whose issuer fails the address
validator. -/
def paymentBadIssuer : StellarTransactionDetails :=
  { type := "payment", sourceAccount := some gAddr1,
    destinationAccount := some gAddr2, amount := some "10",
    asset := some { code := some "USDC", issuer := some "not-an-address" } }

/-- An intent whose source account fails the address validator. -/
def paymentBadSource : StellarTransactionDetails :=
  { type := "payment", sourceAccount := some "GBAD" }

/-- An intent of the unhandled kind `accountMerge`. -/
def accountMergeIntent : StellarTransactionDetails :=
  { type := "accountMerge", sourceAccount := some gAddr1 }

/-- The transaction the builder produces for `paymentBadIssuer`: the invalid
issuer string sits inside the SDK asset arguments. -/
def builtBadIssuer : BuiltTx :=
  { sourceAccount := gAddr1,
    operation := .payment gAddr2
      (.alphanum (some "USDC") (some "not-an-address")) "10",
    memo := none, timeoutSecs := 30 }

/-- A `/info` response whose JSON body has no credits field. -/
def infoRespNoCredits : HttpResponse InfoBody :=
  { status := 200, headers := [], bodyText := "", json := .ok { activated := some true } }

/-- A `/info` response whose credits field is the string `not-a-number`. -/
def infoRespNonNumeric : HttpResponse InfoBody :=
  { status := 200, headers := [], bodyText := "",
    json := .ok { credits := some "not-a-number", activated := some true } }

/-- A submission request carrying both a wire transaction and a host
function. -/
def reqBothXdrAndFunc : SubmissionRequest :=
  { xdr := some "XDRDATA", func := some "FUNCDATA" }

/-- A plain wire submission request. -/
def reqXdrOnly : SubmissionRequest := { xdr := some "XDRDATA" }

/-- A 2xx submission response with the example hash and credits header. -/
def respCredits899800 : HttpResponse SubmitBody :=
  { status := 200, headers := [("X-Credits-Remaining", "899800")],
    bodyText := "", json := .ok { tx := some "abc123" } }

/-- A 2xx submission response whose JSON body has neither `tx` nor `hash`. -/
def respEmptyBody : HttpResponse SubmitBody :=
  { status := 200, headers := [], bodyText := "", json := .ok {} }

/-- The validator condition, read off a character list: length 56, head `G`,
tail in the alphabet. -/
lemma validAddressList_iff (l : List Char) :
    (decide (l.length = 56) && decide (l.head? = some 'G') &&
        (!l.isEmpty && l.all upperAlnum)) = true ↔
      l.length = 56 ∧ l.head? = some 'G' ∧
        ∀ c ∈ l.drop 1, upperAlnum c = true := by
  cases l with
  | nil => simp
  | cons a t =>
    simp only [Bool.and_eq_true, decide_eq_true_eq, List.isEmpty_cons,
      Bool.not_false, List.head?_cons, Option.some.injEq, List.length_cons,
      List.all_eq_true, List.drop_succ_cons, List.drop_zero, List.mem_cons,
      true_and]
    constructor
    · rintro ⟨⟨h1, h2⟩, h3⟩
      exact ⟨h1, h2, fun c hc => h3 c (Or.inr hc)⟩
    · rintro ⟨h1, h2, h3⟩
      subst h2
      refine ⟨⟨h1, rfl⟩, ?_⟩
      rintro c (rfl | hc)
      · decide
      · exact h3 c hc

/-- C1: `isValidStellarAddress s` is true exactly when `s` has length 56, its
first character is the account prefix `G`, and every remaining character lies
in the uppercase alphanumeric alphabet `[A-Z0-9]`.  The function is a total
Boolean predicate, so it never throws, and it returns `false` on every
malformed string, including the empty string. -/
theorem isValidStellarAddress_iff (s : String) :
    isValidStellarAddress s = true ↔
      s.data.length = 56 ∧ s.data.head? = some 'G' ∧
        ∀ c ∈ s.data.drop 1, upperAlnum c = true := by
  unfold isValidStellarAddress regexUpperAlnumPlus
  exact validAddressList_iff s.data

/-- C2 counterexample: the payment intent with amount `"-5"` — a value `≤ 0`
— is not rejected before the network call: the compiler performs the
source-account load and then hands the SDK a payment operation carrying the
amount `"-5"` unchecked, never raising a rejection. -/
theorem c2_negative_amount_not_rejected_before_network :
    (buildTransactionXDR paymentNegativeAmount).1 = [.loadAccount gAddr1] ∧
    (buildTransactionXDR paymentNegativeAmount).2 =
      .ok { sourceAccount := gAddr1,
            operation := .payment gAddr2 .native "-5",
            memo := none, timeoutSecs := 30 } :=
  ⟨rfl, rfl⟩

/-- C2 amended: a payment intent whose amount field is absent or empty is
rejected with `paymentMissingFields`, but only after the source-account load
has been performed; amounts are never parsed numerically, so non-numeric or
non-positive amount strings pass through to the ledger SDK. -/
theorem c2_missing_amount_rejected_after_load
    (d : StellarTransactionDetails) (s : String)
    (htype : d.type = "payment") (hsrc : d.sourceAccount = some s)
    (hs : s ≠ "") (hamt : truthyStr d.amount = false) :
    buildTransactionXDR d = ([.loadAccount s], .error .paymentMissingFields) := by
  have hop : buildOperation d = .error .paymentMissingFields := by
    unfold buildOperation
    rw [htype]
    cases hd : d.amount with
    | none => cases d.destinationAccount <;> simp
    | some a =>
      have ha : a = "" := by
        rw [hd] at hamt
        simpa [truthyStr, String.isEmpty_iff] using hamt
      cases d.destinationAccount <;> simp [ha]
  unfold buildTransactionXDR
  rw [hsrc]
  simp [hs, hop]

/-- C2 witness: the concrete payment intent with no amount is rejected with
`paymentMissingFields` after the account load. -/
theorem c2_missing_amount_witness :
    buildTransactionXDR paymentNoAmount =
      ([.loadAccount gAddr1], .error .paymentMissingFields) :=
  c2_missing_amount_rejected_after_load paymentNoAmount gAddr1 rfl rfl
    (by decide) rfl

/-- C3 counterexample: on the changeTrust intent lacking an issuer, the
compiler does raise the missing-field error, but the source-account load
network call has already occurred (the trace is nonempty), contradicting
"raised before any load of the source account's state". -/
theorem c3_missing_issuer_but_account_load_occurs :
    (buildTransactionXDR changeTrustNoIssuer).1 = [.loadAccount gAddr1] ∧
    (buildTransactionXDR changeTrustNoIssuer).2 =
      .error .changeTrustMissingFields :=
  ⟨rfl, rfl⟩

/-- C3 amended: a changeTrust intent whose trust asset lacks an issuer fails
compilation with the missing-required-field error `changeTrustMissingFields`,
but the failure is raised after the source-account load (the account-load
network call does occur). -/
theorem c3_missing_issuer_error_after_load
    (d : StellarTransactionDetails) (s : String)
    (htype : d.type = "changeTrust") (hsrc : d.sourceAccount = some s)
    (hs : s ≠ "")
    (hiss : ∀ ta, d.trustAsset = some ta → truthyStr ta.issuer = false) :
    buildTransactionXDR d =
      ([.loadAccount s], .error .changeTrustMissingFields) := by
  have hop : buildOperation d = .error .changeTrustMissingFields := by
    unfold buildOperation
    rw [htype]
    cases hta : d.trustAsset with
    | none => simp
    | some ta => simp [hiss ta hta]
  unfold buildTransactionXDR
  rw [hsrc]
  simp [hs, hop]

/-- C3 witness: the concrete issuerless changeTrust intent compiles to the
missing-field error with the account load in the trace. -/
theorem c3_missing_issuer_witness :
    buildTransactionXDR changeTrustNoIssuer =
      ([.loadAccount gAddr1], .error .changeTrustMissingFields) :=
  c3_missing_issuer_error_after_load changeTrustNoIssuer gAddr1 rfl rfl
    (by decide) (fun ta hta => by cases hta; rfl)

/-- C4 counterexample: a payment in a non-native asset whose issuer fails
`isValidStellarAddress` is not a compile error: the handler pipeline performs
the account-load network call and passes the invalid issuer through to the
ledger SDK inside the built operation. -/
theorem c4_invalid_issuer_passed_through :
    isValidStellarAddress "not-an-address" = false ∧
    handlerCompile paymentBadIssuer =
      ([.loadAccount gAddr1], .ok (.built builtBadIssuer)) :=
  ⟨by decide, rfl⟩

/-- C4 amended: a present, nonempty `sourceAccount` or `destinationAccount`
failing `isValidStellarAddress` is rejected before any network access (empty
trace), and a missing or `"XLM"` asset code resolves to the native asset; but
asset issuer fields are never validated — a non-native asset with an absent
or invalid issuer is passed through to the ledger SDK rather than being a
compile error. -/
theorem c4_account_fields_validated_before_network :
    (∀ d s, d.sourceAccount = some s → s ≠ "" →
      isValidStellarAddress s = false →
      handlerCompile d = ([], .error (.invalidSourceAccount s))) ∧
    (∀ d t, (∀ s, d.sourceAccount = some s →
        s = "" ∨ isValidStellarAddress s = true) →
      d.destinationAccount = some t → t ≠ "" →
      isValidStellarAddress t = false →
      handlerCompile d = ([], .error (.invalidDestinationAccount t))) ∧
    (resolveAsset none = .native ∧
      ∀ i, resolveAsset (some { code := some "XLM", issuer := i }) = .native) := by
  refine ⟨?_, ?_, rfl, fun i => rfl⟩
  · intro d s hsrc hs hinv
    unfold handlerCompile
    rw [hsrc]
    simp [hs, hinv]
  · intro d t hsrcOk hdest ht hinv
    unfold handlerCompile
    have hdeststage : handlerDestStage d =
        ([], .error (.invalidDestinationAccount t)) := by
      unfold handlerDestStage
      rw [hdest]
      simp [ht, hinv]
    cases hsrc : d.sourceAccount with
    | none => exact hdeststage
    | some s =>
      rcases hsrcOk s hsrc with h | h
      · simp [h, hdeststage]
      · simp [h, hdeststage]

/-- C4 witness: the concrete intent with source account `"GBAD"` is rejected
with an empty network trace. -/
theorem c4_invalid_source_witness :
    handlerCompile paymentBadSource =
      ([], .error (.invalidSourceAccount "GBAD")) :=
  c4_account_fields_validated_before_network.1 paymentBadSource "GBAD" rfl
    (by decide) (by decide)

/-- C5 counterexample: on a `/info` response whose body has no credits field,
the service silently returns the string `"0"` and the action reports a
successfully parsed numeric zero balance — no unparseable-credits condition
is surfaced. -/
theorem c5_missing_credits_coerced_to_zero :
    (checkCredits (some cfg0) (.ok infoRespNoCredits)).2 = .ok "0" ∧
    checkCreditsHandler (some cfg0) (.ok infoRespNoCredits) =
      { success := true, parsingError := some false, credits := some 0,
        creditsString := some "0" } :=
  ⟨rfl, rfl⟩

/-- C5 amended: a credits field carrying a non-numeric string is surfaced by
the checkCredits action as a distinct parsing-error condition (`success`
false, `parsingError` true, no numeric balance); but an absent credits field
is silently coerced by the service to the string `"0"` and reported as a
parsed zero balance. -/
theorem c5_nonnumeric_credits_surfaced
    (cfg : LaunchtubeConfig) (resp : HttpResponse InfoBody) (body : InfoBody)
    (s : String) (hok : respOk resp.status = true) (hjson : resp.json = .ok body)
    (hcred : body.credits = some s) (hs : s ≠ "")
    (hparse : jsParseInt s = none) :
    checkCreditsHandler (some cfg) (.ok resp) =
      { success := false, parsingError := some true, credits := none,
        creditsString := some s } ∧
    ∀ b : InfoBody, b.credits = none → extractCredits b = "0" := by
  refine ⟨?_, fun b hb => by unfold extractCredits; rw [hb]⟩
  unfold checkCreditsHandler checkCredits makeRequest
  simp [hok, hjson, extractCredits, hcred, hs, hparse]

/-- C5 witness: the concrete `/info` response with credits
`"not-a-number"` yields the parsing-error report, and a creditless body
extracts to `"0"`. -/
theorem c5_nonnumeric_credits_witness :
    checkCreditsHandler (some cfg0) (.ok infoRespNonNumeric) =
      { success := false, parsingError := some true, credits := none,
        creditsString := some "not-a-number" } ∧
    extractCredits { activated := some true } = "0" := by
  have h := c5_nonnumeric_credits_surfaced cfg0 infoRespNonNumeric
    { credits := some "not-a-number", activated := some true } "not-a-number"
    (by decide) rfl rfl (by decide) (by decide)
  exact ⟨h.1, h.2 _ rfl⟩

/-- C6 counterexample: a request supplying both a wire transaction and a
host function is not rejected: the service encodes both fields into the form
body, sends the HTTP POST to the relay, and reports success from the
response. -/
theorem c6_both_xdr_and_func_sent_anyway :
    (submitTransaction (some cfg0) reqBothXdrAndFunc (.ok respEmptyBody)).1 =
      [.httpPost "/" [("xdr", "XDRDATA"), ("func", "FUNCDATA")]] ∧
    (submitTransaction (some cfg0) reqBothXdrAndFunc (.ok respEmptyBody)).2.status =
      "success" :=
  ⟨rfl, rfl⟩

/-- C6 amended: `submitTransaction` performs no client-side mutual-exclusion
check: for every initialized service and every request — including requests
supplying both a wire transaction and a host function, and requests supplying
neither — the request is form-encoded as-is and exactly one HTTP POST is
issued to the relay. -/
theorem c6_submit_always_posts (cfg : LaunchtubeConfig)
    (req : SubmissionRequest) (outcome : FetchOutcome SubmitBody) :
    (submitTransaction (some cfg) req outcome).1 =
      [.httpPost "/" (encodeSubmitBody req)] :=
  rfl

/-- C7: on every 2xx relay response whose `X-Credits-Remaining` header reads
`899800` and whose JSON body is `tx: "abc123"`, the submission result is a
success carrying the hash `"abc123"` taken from the body and the
remaining-credits value `"899800"` (the header's decimal string) taken from
the response header. -/
theorem c7_success_reads_body_and_header (cfg : LaunchtubeConfig)
    (req : SubmissionRequest) (resp : HttpResponse SubmitBody)
    (hok : respOk resp.status = true)
    (hhdr : headerGet resp.headers "X-Credits-Remaining" = some "899800")
    (hjson : resp.json = .ok { tx := some "abc123", hash := none }) :
    (submitTransaction (some cfg) req (.ok resp)).2 =
      { status := "success", tx := some "abc123", error := none,
        detailsCreditsRemaining := some "899800" } := by
  unfold submitTransaction makeRequest
  simp [hok, hjson, hhdr, jsOrString, truthyStr]
  decide

/-- C7 witness: the concrete `respCredits899800` response yields exactly
that success result. -/
theorem c7_success_witness :
    (submitTransaction (some cfg0) reqXdrOnly (.ok respCredits899800)).2 =
      { status := "success", tx := some "abc123", error := none,
        detailsCreditsRemaining := some "899800" } :=
  c7_success_reads_body_and_header cfg0 reqXdrOnly respCredits899800
    (by decide) (by decide) rfl

/-- C8 counterexample: a 2xx relay response whose JSON body carries neither a
`tx` nor a `hash` field produces a result with status `"success"` and an
undefined (`none`) transaction hash — the claimed invariant fails. -/
theorem c8_success_with_undefined_hash :
    (submitTransaction (some cfg0) reqXdrOnly (.ok respEmptyBody)).2.status =
      "success" ∧
    (submitTransaction (some cfg0) reqXdrOnly (.ok respEmptyBody)).2.tx =
      none :=
  ⟨rfl, rfl⟩

/-- C8 amended: every failure path of `submitTransaction` returns a
structured result — status is `"error"` exactly when the result carries a
human-readable error message; however, a 2xx response whose JSON body lacks
both `tx` and `hash` yields status `"success"` with an undefined transaction
hash, so success does not guarantee a present hash. -/
theorem c8_failures_structured (config : Option LaunchtubeConfig)
    (req : SubmissionRequest) (outcome : FetchOutcome SubmitBody) :
    (submitTransaction config req outcome).2.status = "error" ↔
      ((submitTransaction config req outcome).2.error).isSome = true := by
  unfold submitTransaction makeRequest
  cases config with
  | none => simp
  | some cfg =>
    cases outcome with
    | netError m => simp
    | ok resp =>
      by_cases hok : respOk resp.status = true
      · cases hjson : resp.json with
        | error m => simp [hok, hjson]
        | ok body => simp [hok, hjson]
      · simp [hok]

/-- C9: an intent whose kind is none of the four recognized operation kinds
never compiles to a transaction (no silent no-op), and — whenever the source
account is present so that compilation reaches the operation switch — it
fails with the hard `unsupportedTransactionType` compile error. -/
theorem c9_unknown_kind_hard_error (d : StellarTransactionDetails)
    (h1 : d.type ≠ "payment") (h2 : d.type ≠ "createAccount")
    (h3 : d.type ≠ "changeTrust") (h4 : d.type ≠ "pathPayment") :
    (∀ tx, (buildTransactionXDR d).2 ≠ .ok tx) ∧
    (∀ s, d.sourceAccount = some s → s ≠ "" →
      (buildTransactionXDR d).2 =
        .error (.unsupportedTransactionType d.type)) := by
  have hop : buildOperation d = .error (.unsupportedTransactionType d.type) := by
    unfold buildOperation
    simp [h1, h2, h3, h4]
  constructor
  · intro tx
    unfold buildTransactionXDR
    cases hsrc : d.sourceAccount with
    | none => simp
    | some s =>
      by_cases hs : s = "" <;> simp [hs, hop]
  · intro s hsrc hs
    unfold buildTransactionXDR
    rw [hsrc]
    simp [hs, hop]

/-- C9 witness: the concrete `accountMerge` intent fails with the hard
unsupported-type error. -/
theorem c9_unknown_kind_witness :
    (buildTransactionXDR accountMergeIntent).2 =
      .error (.unsupportedTransactionType "accountMerge") :=
  (c9_unknown_kind_hard_error accountMergeIntent (by decide) (by decide)
    (by decide) (by decide)).2 gAddr1 rfl (by decide)

/-- C10: `submitTransaction` is total — a Lean function never propagates an
exception — and on each internally raised error it returns a `status:
"error"` result carrying that error's message text: the not-initialized
message when no configuration is present, the fetch rejection message on a
network failure, the `Launchtube API error (status): body` message (which
embeds the response body captured by `makeRequest`) on a non-2xx response,
and the JSON parse-error message when the 2xx body fails to parse. -/
theorem c10_submit_total_error_handling (config : Option LaunchtubeConfig)
    (req : SubmissionRequest) (outcome : FetchOutcome SubmitBody) :
    (config = none →
      (submitTransaction config req outcome).2 =
        { status := "error",
          error := some "LaunchtubeService not initialized" }) ∧
    (∀ m, outcome = .netError m → config.isSome = true →
      (submitTransaction config req outcome).2 =
        { status := "error", error := some m }) ∧
    (∀ resp, outcome = .ok resp → config.isSome = true →
      respOk resp.status = false →
      (submitTransaction config req outcome).2 =
        { status := "error",
          error := some ("Launchtube API error (" ++ toString resp.status
            ++ "): " ++ resp.bodyText) }) ∧
    (∀ resp m, outcome = .ok resp → config.isSome = true →
      respOk resp.status = true → resp.json = .error m →
      (submitTransaction config req outcome).2 =
        { status := "error", error := some m }) := by
  refine ⟨?_, ?_, ?_, ?_⟩
  · intro hcfg
    subst hcfg
    rfl
  · intro m houtcome hcfg
    subst houtcome
    cases config with
    | none => simp at hcfg
    | some cfg => rfl
  · intro resp houtcome hcfg hbad
    subst houtcome
    cases config with
    | none => simp at hcfg
    | some cfg =>
      unfold submitTransaction makeRequest
      simp [hbad]
  · intro resp m houtcome hcfg hok hjson
    subst houtcome
    cases config with
    | none => simp at hcfg
    | some cfg =>
      unfold submitTransaction makeRequest
      simp [hok, hjson]

/-- C10 witness: with no configuration, the concrete request yields the
not-initialized error result. -/
theorem c10_submit_total_witness :
    (submitTransaction none reqXdrOnly (.netError "boom")).2 =
      { status := "error",
        error := some "LaunchtubeService not initialized" } :=
  (c10_submit_total_error_handling none reqXdrOnly (.netError "boom")).1 rfl

end Avenrise
